import Mathlib

/-!
Verification development for the Orius compute-network core
(task dispatch, consensus verification, trust/reputation).

The definitions below are a shallow embedding of the JavaScript source:

* `src/utils/crypto.js`      — canonical hashing of structured results;
* `src/queue/taskQueue.js`   — dispatch, submission processing, trust updates;
* the result verifier module — execution-time plausibility, canary record
  keeping (the `ResultVerifier` class);
* the API routes module      — the `POST /compute/task/submit` handler;
* the SQL schema             — row shapes for the modelled tables.

Modelling conventions:

* SQL `DECIMAL` columns are exact fixed-point values; they are embedded as
  integers in the smallest unit: trust scores (`DECIMAL(5,2)`) in hundredths
  of a point (100.00 ↦ 10000, +0.5 ↦ +50), credit/balance columns
  (`DECIMAL(18,6)`) in millionths of a credit (0.5 ↦ 500000).
* Database state is a record of lists of rows, updated in table order;
  SQL `UPDATE ... WHERE` maps every matching row.
* `NOW()` timestamps are an explicit `now : Nat` parameter.
* The verification logic reads `allResults[0]` of a `GROUP BY result_hash
  ORDER BY count DESC` query.  SQL leaves the order of tied groups
  unspecified; the embedding resolves ties deterministically in favour of
  the group whose hash first appears in assignment-table order
  (`List.argmax` keeps the earlier element on ties).
* SHA-256 itself is an external primitive; nothing in the claims depends on
  anything beyond it being a fixed deterministic function of its input
  string, so it is modelled as such a function.
-/

namespace Orius

/-! ## JavaScript values (JSON data model) -/

/-- A JavaScript/JSON value, as handled by `crypto.js`.  Object fields are a
list of key/value pairs in insertion order; JS numbers are modelled as
integers (the claims about hashing only involve integral numbers). -/
inductive Jv where
  | null : Jv
  | bool (b : Bool) : Jv
  | num (n : Int) : Jv
  | str (s : String) : Jv
  | arr (elems : List Jv) : Jv
  | obj (fields : List (String × Jv)) : Jv

/-- Key rank used to sort object keys: the list of character code points.
`Object.keys(obj).sort()` compares strings by code unit; lexicographic
comparison of the code-point lists models that order. -/
def keyRank (s : String) : List Nat := s.data.map Char.toNat

/-- Order on object entries by key, used for canonical key sorting. -/
def fieldLe (p q : String × Jv) : Prop := keyRank p.1 ≤ keyRank q.1

/-- Strict version of `fieldLe`. -/
def fieldLt (p q : String × Jv) : Prop := keyRank p.1 < keyRank q.1

instance : DecidableRel fieldLe := fun p q =>
  inferInstanceAs (Decidable (keyRank p.1 ≤ keyRank q.1))

instance : IsTotal (String × Jv) fieldLe := ⟨fun p q => le_total (keyRank p.1) (keyRank q.1)⟩

instance : IsTrans (String × Jv) fieldLe := ⟨fun _ _ _ h h2 => le_trans h h2⟩

instance : IsAntisymm (String × Jv) fieldLt :=
  ⟨fun _ _ h h2 => absurd h2 (lt_asymm h)⟩

-- JSON serialization (`JSON.stringify`).  The claims only use that it is a
-- function of the (already key-sorted) structure, so string escaping inside
-- literals is not modelled.
mutual
def stringifyJv : Jv → String
  | .null => "null"
  | .bool true => "true"
  | .bool false => "false"
  | .num n => toString n
  | .str s => "\"" ++ s ++ "\""
  | .arr xs => "[" ++ String.intercalate "," (stringifyList xs) ++ "]"
  | .obj fs => "\x7b" ++ String.intercalate "," (stringifyFields fs) ++ "\x7d"
termination_by structural x => x

def stringifyList : List Jv → List String
  | [] => []
  | x :: xs => stringifyJv x :: stringifyList xs
termination_by structural xs => xs

def stringifyFields : List (String × Jv) → List String
  | [] => []
  | (k, v) :: fs => ("\"" ++ k ++ "\":" ++ stringifyJv v) :: stringifyFields fs
termination_by structural fs => fs
end

-- `sortObject` from `crypto.js`: recursively sort object keys; map over
-- arrays; return primitives unchanged.  The source sorts `Object.keys` and
-- rebuilds the object in sorted-key order, which (keys of a JS object being
-- unique) equals sorting the entry list by key after recursing into values.
mutual
def sortObject : Jv → Jv
  | .null => .null
  | .bool b => .bool b
  | .num n => .num n
  | .str s => .str s
  | .arr xs => .arr (sortObjectList xs)
  | .obj fs => .obj (List.insertionSort fieldLe (sortObjectFields fs))
termination_by structural x => x

def sortObjectList : List Jv → List Jv
  | [] => []
  | x :: xs => sortObject x :: sortObjectList xs
termination_by structural xs => xs

def sortObjectFields : List (String × Jv) → List (String × Jv)
  | [] => []
  | (k, v) :: fs => (k, sortObject v) :: sortObjectFields fs
termination_by structural fs => fs
end

/-- `typeof result === 'object'` — true for objects, arrays and `null`. -/
def isJsObject : Jv → Bool
  | .null => true
  | .arr _ => true
  | .obj _ => true
  | _ => false

/-- `String(result)` for the non-object branch of `hashResult` (the
object/array arms exist only for totality; `hashResult` never reaches them). -/
def jsToString : Jv → String
  | .null => "null"
  | .bool true => "true"
  | .bool false => "false"
  | .num n => toString n
  | .str s => s
  | .arr _ => ""
  | .obj _ => "[object Object]"

/-- Digest model for `sha256` of `crypto.js` (on the already-serialized
string).  Only determinism is relied upon, so the digest is modelled as a
fixed executable function of the input string. -/
def sha256 (s : String) : String :=
  "h" ++ toString (s.data.foldl (fun a c => (a * 131 + c.toNat) % 1000000007) 7)

/-- `hashResult` from `crypto.js`: objects are canonicalized by `sortObject`
and JSON-serialized, anything else is converted with `String(...)`; the
result is hashed. -/
def hashResult (result : Jv) : String :=
  if isJsObject result then sha256 (stringifyJv (sortObject result))
  else sha256 (jsToString result)

/-- HMAC model for `signTaskManifest`: a keyed deterministic digest over the
manifest projection `(uuid, type, input hash, expiry)`. -/
def signTaskManifest (uuid taskType inputHash : String) (expiresAt : Nat)
    (secret : String) : String :=
  sha256 (secret ++ "|" ++ uuid ++ "|" ++ taskType ++ "|" ++ inputHash ++ "|"
    ++ toString expiresAt)

/-! ## Equality up to object-key ordering

`KeyPerm x y` holds when `x` and `y` are equal up to reordering the keys of
any nested object (recursively, including objects inside arrays).  Object
keys are required to be distinct, matching JS object semantics. -/

mutual
def KeyPerm : Jv → Jv → Prop
  | .null, .null => True
  | .bool a, .bool b => a = b
  | .num a, .num b => a = b
  | .str a, .str b => a = b
  | .arr xs, .arr ys => KeyPermList xs ys
  | .obj xs, .obj ys =>
      (xs.map Prod.fst).Nodup ∧ ∃ zs, KeyPermEntries xs zs ∧ zs.Perm ys
  | _, _ => False
termination_by structural x => x

def KeyPermList : List Jv → List Jv → Prop
  | [], [] => True
  | x :: xs, y :: ys => KeyPerm x y ∧ KeyPermList xs ys
  | _, _ => False
termination_by structural xs => xs

def KeyPermEntries : List (String × Jv) → List (String × Jv) → Prop
  | [], [] => True
  | (k, v) :: xs, (k2, w) :: ys => k = k2 ∧ KeyPerm v w ∧ KeyPermEntries xs ys
  | _, _ => False
termination_by structural xs => xs
end

/-! ## Database rows (schema.sql) and store state -/

/-- Row of `users` (the fields touched by the queue subsystem).  Balances are
`DECIMAL(18,6)` values in millionths of a credit. -/
structure UserRow where
  userId : Nat
  deviceId : String
  totalComputeCredits : Int
  claimableBalance : Int
  totalEarned : Int

/-- Row of `compute_tasks`. -/
structure TaskRow where
  taskId : Nat
  uuid : String
  taskType : String
  difficulty : Int
  priority : Int
  inputHash : String
  expectedOutputHash : Option String
  inputData : Jv
  modelUrl : Option String
  modelHash : Option String
  rewardCredits : Int
  maxExecutionTimeMs : Int
  requiresGpu : Bool
  redundancyCount : Nat
  status : String
  createdAt : Nat
  expiresAt : Nat

/-- Row of `task_assignments`. -/
structure AssignmentRow where
  assignId : Nat
  taskId : Nat
  userId : Nat
  deviceId : String
  status : String
  resultHash : Option String
  resultData : Option Jv
  executionTimeMs : Option Int
  completedAt : Option Nat
  verified : Bool
  creditsAwarded : Int

/-- Row of `task_results`. -/
structure TaskResultRow where
  taskId : Nat
  consensusHash : String
  totalSubmissions : Nat
  matchingSubmissions : Nat
  consensusReached : Bool
  verifiedAt : Nat

/-- Row of `earnings`. -/
structure EarningRow where
  userId : Nat
  earnedAmount : Int
  earningType : String
  taskId : Nat

/-- Row of `node_trust`.  `trustScore` is `DECIMAL(5,2)` in hundredths of a
point (initial 100.00 ↦ 10000). -/
structure TrustRow where
  deviceId : String
  trustScore : Int
  totalTasksCompleted : Nat
  successfulTasks : Nat
  failedTasks : Nat
  canaryFailures : Nat
  lastFailureAt : Option Nat
  banned : Bool
  bannedAt : Option Nat
  banReason : Option String

/-- Row of `canary_tasks`. -/
structure CanaryRow where
  uuid : String
  taskType : String
  inputData : Jv
  knownOutputHash : String
  knownResult : Jv

/-- The database state shared by dispatcher, verifier and trust subsystem. -/
structure Store where
  users : List UserRow
  tasks : List TaskRow
  assignments : List AssignmentRow
  taskResults : List TaskResultRow
  earnings : List EarningRow
  nodeTrust : List TrustRow
  canaries : List CanaryRow

/-- SQL `UPDATE ... SET ... WHERE p`: apply `f` to every row satisfying `p`. -/
def updateWhere {α : Type} (p : α → Bool) (f : α → α) (l : List α) : List α :=
  l.map (fun x => if p x then f x else x)

/-- SQL `LEAST` on fixed-point values. -/
def intMin (a b : Int) : Int := if a ≤ b then a else b

/-- SQL `GREATEST` on fixed-point values. -/
def intMax (a b : Int) : Int := if a ≤ b then b else a

/-- A fresh `node_trust` row (`INSERT ... VALUES (deviceId, 100)` plus the
schema defaults). -/
def freshTrust (deviceId : String) : TrustRow :=
  ⟨deviceId, 10000, 0, 0, 0, 0, none, false, none, none⟩

/-- Model of `taskUuid.startsWith('canary_')` (computed on character data so
that it evaluates inside the kernel). -/
def startsWithCanary (s : String) : Bool :=
  s.data.take "canary_".data.length == "canary_".data

/-! ## Consensus verdict (`taskQueue.js`, `processRegularResult` lines 189-210) -/

/-- `Math.ceil(redundancy_count / 2)` for a nonnegative integer count. -/
def ceilHalf (r : Nat) : Nat := (r + 1) / 2

/-- Count of completed submissions whose hash equals `h`. -/
def countHash (cs : List String) (h : String) : Nat :=
  cs.countP (fun g => decide (g = h))

/-- Accumulator step building the list of distinct hashes in first-occurrence
order. -/
def addFirst (acc : List String) (h : String) : List String :=
  if h ∈ acc then acc else acc ++ [h]

/-- Distinct hashes of the completed submissions, in the order their first
occurrence appears in the assignment table. -/
def firstOccur (cs : List String) : List String := cs.foldl addFirst []

/-- The `GROUP BY result_hash` rows: one `(hash, count)` pair per distinct
hash, in first-occurrence order. -/
def hashGroups (cs : List String) : List (String × Nat) :=
  (firstOccur cs).map (fun h => (h, countHash cs h))

/-- The row `allResults[0]` of `ORDER BY count DESC LIMIT ...`: a group with
maximal count.  SQL leaves the relative order of tied counts unspecified;
`List.argmax` keeps the earliest group, i.e. ties go to the hash completed
first. -/
def topGroup (cs : List String) : Option (String × Nat) :=
  (hashGroups cs).argmax Prod.snd

/-- The verification decision of `processRegularResult`: the submission is
verified iff its hash heads the frequency ranking and, for a task with a
stored `expected_output_hash`, equals that hash, or otherwise its group count
reaches `ceil(redundancy_count / 2)`. -/
def consensusVerdict (expected : Option String) (redundancy : Nat)
    (completed : List String) (resultHash : String) : Bool :=
  match topGroup completed with
  | none => false
  | some top =>
      top.1 == resultHash &&
      (match expected with
       | some h => resultHash == h
       | none => decide (ceilHalf redundancy ≤ top.2))

/-! ## Trust updates (`taskQueue.js` lines 265-352, verifier module lines 87-127) -/

/-- `updateTrustScore(client, deviceId, true)`: +0.5 trust clamped at 100,
counters bumped. -/
def trustSuccessUpdate (r : TrustRow) : TrustRow :=
  { r with successfulTasks := r.successfulTasks + 1,
           totalTasksCompleted := r.totalTasksCompleted + 1,
           trustScore := intMin 10000 (r.trustScore + 50) }

/-- `updateTrustScore(client, deviceId, false)`: −5 trust clamped at 0. -/
def trustFailureUpdate (now : Nat) (r : TrustRow) : TrustRow :=
  { r with failedTasks := r.failedTasks + 1,
           totalTasksCompleted := r.totalTasksCompleted + 1,
           trustScore := intMax 0 (r.trustScore - 500),
           lastFailureAt := some now }

/-- Canary mismatch branch of `verifyCanaryResult`: `canary_failures + 1`,
−10 trust clamped at 0, failure timestamp. -/
def canaryFailUpdate (now : Nat) (r : TrustRow) : TrustRow :=
  { r with canaryFailures := r.canaryFailures + 1,
           trustScore := intMax 0 (r.trustScore - 1000),
           lastFailureAt := some now }

/-- Ban escalation of `verifyCanaryResult`: banned with reason and
timestamp. -/
def banUpdate (now : Nat) (r : TrustRow) : TrustRow :=
  { r with banned := true, bannedAt := some now,
           banReason := some "Multiple canary failures" }

/-- Canary pass branch of `verifyCanaryResult`: +1 trust clamped at 100. -/
def canaryPassUpdate (r : TrustRow) : TrustRow :=
  { r with successfulTasks := r.successfulTasks + 1,
           trustScore := intMin 10000 (r.trustScore + 100) }

/-- `ResultVerifier.recordCanaryResult(deviceId, true)`: +2 trust clamped at
100. -/
def verifierCanaryPassUpdate (r : TrustRow) : TrustRow :=
  { r with trustScore := intMin 10000 (r.trustScore + 200) }

/-- `ResultVerifier.recordCanaryResult(deviceId, false)`: −15 trust clamped
at 0, `canary_failures + 1`, failure timestamp. -/
def verifierCanaryFailUpdate (now : Nat) (r : TrustRow) : TrustRow :=
  { r with trustScore := intMax 0 (r.trustScore - 1500),
           canaryFailures := r.canaryFailures + 1,
           lastFailureAt := some now }

/-- `ResultVerifier.banNode`: banned with reason, timestamp and zeroed trust
score. -/
def banNodeUpdate (now : Nat) (reason : String) (r : TrustRow) : TrustRow :=
  { r with banned := true, bannedAt := some now, banReason := some reason,
           trustScore := 0 }

/-! ## Result submission (`taskQueue.js` lines 144-329) -/

/-- Value returned by `submitResult` / `processRegularResult` /
`verifyCanaryResult`. -/
structure SubmitOutcome where
  success : Bool
  error : Option String
  verified : Bool
  creditsAwarded : Int
  resultHash : Option String
  isCanary : Bool

/-- Hashes of the completed submissions for a task, in assignment-table
order (the rows this code path completes always carry a result hash). -/
def completedHashes (st : Store) (taskId : Nat) : List String :=
  st.assignments.filterMap (fun a =>
    if a.taskId = taskId && a.status = "completed" then a.resultHash else none)

/-- `TaskQueue.processRegularResult` (lines 156-263): look up the caller's
assignment joined with its task and user, mark it completed with the
submitted hash, recompute the hash-frequency distribution over completed
submissions, decide verification, award credits and bump trust on success,
and finalize the task once total submissions reach the redundancy target. -/
def processRegularResult (now : Nat) (st : Store) (deviceId taskUuid : String)
    (result : Jv) (resultHash : String) (executionTimeMs : Int) :
    SubmitOutcome × Store :=
  match st.tasks.find? (fun t => t.uuid == taskUuid) with
  | none => (⟨false, some "Assignment not found", false, 0, none, false⟩, st)
  | some t =>
    match (st.assignments.filter (fun a =>
        a.taskId == t.taskId && a.deviceId == deviceId
          && st.users.any (fun u => u.userId == a.userId))).head? with
    | none => (⟨false, some "Assignment not found", false, 0, none, false⟩, st)
    | some a =>
      let markCompleted : AssignmentRow → AssignmentRow := fun r =>
        { r with
          status := "completed"
          resultHash := some resultHash
          resultData := some result
          executionTimeMs := some executionTimeMs
          completedAt := some now }
      let asg1 := updateWhere (fun r => r.assignId == a.assignId) markCompleted
        st.assignments
      let st1 : Store := { st with assignments := asg1 }
      let completed := completedHashes st1 t.taskId
      let verified := consensusVerdict t.expectedOutputHash t.redundancyCount
        completed resultHash
      let creditsAwarded : Int := if verified then t.rewardCredits else 0
      let st2 : Store :=
        if verified then
          { st1 with
            assignments := updateWhere (fun r => r.assignId == a.assignId)
              (fun r => { r with verified := true, creditsAwarded := creditsAwarded })
              st1.assignments,
            users := updateWhere (fun u => u.userId == a.userId)
              (fun u => { u with
                totalComputeCredits := u.totalComputeCredits + creditsAwarded,
                claimableBalance := u.claimableBalance + creditsAwarded,
                totalEarned := u.totalEarned + creditsAwarded }) st1.users,
            earnings := st1.earnings ++ [⟨a.userId, creditsAwarded, "compute", t.taskId⟩],
            nodeTrust := updateWhere (fun r => r.deviceId == deviceId)
              trustSuccessUpdate st1.nodeTrust }
        else st1
      let st3 : Store :=
        match topGroup completed with
        | none => st2
        | some top =>
          if t.redundancyCount ≤ completed.length then
            { st2 with
              tasks := updateWhere (fun r => r.taskId == t.taskId)
                (fun r => { r with status := "completed" }) st2.tasks,
              taskResults := st2.taskResults
                ++ [⟨t.taskId, top.1, completed.length, top.2, verified, now⟩] }
          else st2
      (⟨true, none, verified, creditsAwarded, some resultHash, false⟩, st3)

/-- `TaskQueue.verifyCanaryResult` (lines 265-329): compare the submitted
hash with the canary's known output hash; on mismatch bump the failure
counters and ban once `canary_failures` reaches 3; on match reward trust. -/
def verifyCanaryResult (now : Nat) (st : Store) (deviceId taskUuid : String)
    (resultHash : String) : SubmitOutcome × Store :=
  match st.canaries.find? (fun c => c.uuid == taskUuid) with
  | none => (⟨false, some "Canary task not found", false, 0, none, false⟩, st)
  | some c =>
    let passed := resultHash == c.knownOutputHash
    let st1 : Store :=
      if passed then
        { st with
          nodeTrust := updateWhere (fun r => r.deviceId == deviceId)
                         canaryPassUpdate st.nodeTrust }
      else
        let trustF := updateWhere (fun r => r.deviceId == deviceId)
          (canaryFailUpdate now) st.nodeTrust
        let stf : Store := { st with nodeTrust := trustF }
        match stf.nodeTrust.find? (fun r => r.deviceId == deviceId) with
        | some tr =>
          if 3 ≤ tr.canaryFailures then
            { stf with
              nodeTrust := updateWhere (fun r => r.deviceId == deviceId)
                             (banUpdate now) stf.nodeTrust }
          else stf
        | none => stf
    (⟨true, none, passed, if passed then 500000 else 0, none, true⟩, st1)

/-- `TaskQueue.submitResult` (lines 144-154): hash the submitted result, then
route canary-identified tasks to `verifyCanaryResult` and everything else to
`processRegularResult`. -/
def submitResult (now : Nat) (st : Store) (deviceId taskUuid : String)
    (result : Jv) (executionTimeMs : Int) : SubmitOutcome × Store :=
  let resultHash := hashResult result
  if startsWithCanary taskUuid then
    verifyCanaryResult now st deviceId taskUuid resultHash
  else
    processRegularResult now st deviceId taskUuid result resultHash executionTimeMs

/-! ## Dispatch (`taskQueue.js` lines 17-142) -/

/-- Declared node capabilities (the queue only reads
`capabilities?.webgpu_supported`). -/
structure Caps where
  webgpuSupported : Bool

/-- Dispatch outcome of `getNextTask` / `getRegularTask` / `getCanaryTask`:
`noTask` models the JS `null` return. -/
structure TaskPayload where
  taskUuid : String
  taskType : String
  difficulty : Int
  inputData : Jv
  inputHash : String
  modelUrl : Option String
  modelHash : Option String
  maxExecutionTimeMs : Int
  rewardCredits : Int
  signature : Option String
  isCanary : Bool
  knownHash : Option String

inductive DispatchResult where
  | noTask : DispatchResult
  | errorRes (msg : String) : DispatchResult
  | taskRes (payload : TaskPayload) : DispatchResult

/-- Error message carried by a dispatch result, if any. -/
def dispatchError : DispatchResult → Option String
  | .errorRes m => some m
  | _ => none

/-- Task uuid carried by a dispatch result, if any. -/
def dispatchUuid : DispatchResult → Option String
  | .taskRes p => some p.taskUuid
  | _ => none

/-- Count of a task's assignments in status assigned/processing/completed. -/
def activeCount (st : Store) (taskId : Nat) : Nat :=
  (st.assignments.filter (fun a => a.taskId == taskId
    && (a.status == "assigned" || a.status == "processing"
        || a.status == "completed"))).length

/-- Whether the device already holds an active assignment for the task. -/
def hasActiveAssignment (st : Store) (taskId : Nat) (deviceId : String) : Bool :=
  st.assignments.any (fun a => a.taskId == taskId && a.deviceId == deviceId
    && (a.status == "assigned" || a.status == "processing"))

/-- Eligibility filter of the candidate query in `getRegularTask`:
pending, unexpired, matching the GPU filter, not actively held by this
device, and below the redundancy target. -/
def eligibleTask (now : Nat) (st : Store) (gpuFilter : Option Bool)
    (deviceId : String) (t : TaskRow) : Bool :=
  t.status == "pending" && decide (now < t.expiresAt)
    && (match gpuFilter with | none => true | some b => t.requiresGpu == b)
    && !(hasActiveAssignment st t.taskId deviceId)
    && decide (activeCount st t.taskId < t.redundancyCount)

/-- `ORDER BY priority DESC, created_at ASC` comparison: `b` beats `a`. -/
def betterTask (a b : TaskRow) : Bool :=
  decide (a.priority < b.priority)
    || (a.priority == b.priority && decide (b.createdAt < a.createdAt))

/-- `LIMIT 1` over the ordered candidates (keeps the first best row). -/
def pickTask (l : List TaskRow) : Option TaskRow :=
  l.foldl (fun acc t => match acc with
    | none => some t
    | some c => if betterTask c t then some t else some c) none

/-- `TaskQueue.getRegularTask` (lines 33-111): atomically select one eligible
pending task, insert an assignment for the requesting device's user, mark
the task assigned, and return the signed payload.  The GPU filter is `NULL`
when the declared capabilities claim WebGPU support and `false` otherwise. -/
def getRegularTask (now : Nat) (st : Store) (deviceId : String)
    (capabilities : Option Caps) : DispatchResult × Store :=
  let gpuFilter : Option Bool :=
    match capabilities with
    | some c => if c.webgpuSupported then none else some false
    | none => some false
  match pickTask (st.tasks.filter (eligibleTask now st gpuFilter deviceId)) with
  | none => (.noTask, st)
  | some t =>
    match st.users.find? (fun u => u.deviceId == deviceId) with
    | none => (.errorRes "Device not registered", st)
    | some u =>
      let st2 : Store :=
        { st with
          assignments := st.assignments
            ++ [⟨st.assignments.length + 1, t.taskId, u.userId, deviceId,
                "assigned", none, none, none, none, false, 0⟩],
          tasks := updateWhere (fun r => r.taskId == t.taskId)
            (fun r => { r with status := "assigned" }) st.tasks }
      (.taskRes ⟨t.uuid, t.taskType, t.difficulty, t.inputData, t.inputHash,
        t.modelUrl, t.modelHash, t.maxExecutionTimeMs, t.rewardCredits,
        some (signTaskManifest t.uuid t.taskType t.inputHash t.expiresAt
          "orius-secret"), false, none⟩, st2)

/-- `capabilities` used where a device id string is expected: the driver
serializes the object parameter to its JSON text (`undefined` to the empty
SQL null match). -/
def capsDeviceString (capabilities : Option Caps) : String :=
  match capabilities with
  | some c => stringifyJv (Jv.obj [("webgpu_supported", Jv.bool c.webgpuSupported)])
  | none => ""

/-- `TaskQueue.getCanaryTask` (lines 113-142): choose a canary type from the
declared capabilities (`typeCoin` models the 50/50 draw for WebGPU nodes),
sample a canary of that type (`pickIdx` models `ORDER BY RANDOM()`), and if
the pool has none fall through via `getRegularTask(capabilities)` — passing
the capabilities value in the `deviceId` parameter position and leaving the
capabilities parameter undefined, exactly as the source does. -/
def getCanaryTask (now : Nat) (st : Store) (capabilities : Option Caps)
    (typeCoin : Bool) (pickIdx : Nat) : DispatchResult × Store :=
  let taskType : String :=
    match capabilities with
    | some c =>
      if c.webgpuSupported then (if typeCoin then "matrix_mult" else "hash_compute")
      else "hash_compute"
    | none => "hash_compute"
  let matching := st.canaries.filter (fun c => c.taskType == taskType)
  match matching.get? (pickIdx % matching.length) with
  | none => getRegularTask now st (capsDeviceString capabilities) none
  | some c =>
    (.taskRes ⟨c.uuid, c.taskType, 1, c.inputData, sha256 (stringifyJv c.inputData),
      none, none, 10000, 500000, none, true, some c.knownOutputHash⟩, st)

/-- `TaskQueue.getNodeTrustScore` (lines 354-374): banned nodes read as 0,
unknown nodes are lazily initialized at 100. -/
def getNodeTrustScore (st : Store) (deviceId : String) : Int × Store :=
  match st.nodeTrust.find? (fun r => r.deviceId == deviceId) with
  | none => (10000, { st with nodeTrust := st.nodeTrust ++ [freshTrust deviceId] })
  | some r => (if r.banned then 0 else r.trustScore, st)

/-- `TaskQueue.getNextTask` (lines 17-31): reject below the trust floor
(`MIN_TRUST_SCORE = 50`), otherwise serve a canary with probability
`CANARY_TASK_FREQUENCY` (`isCanary` models the random draw) or dispatch a
regular task. -/
def getNextTask (now : Nat) (st : Store) (deviceId : String)
    (capabilities : Option Caps) (isCanary : Bool) (typeCoin : Bool)
    (pickIdx : Nat) : DispatchResult × Store :=
  let scoreSt := getNodeTrustScore st deviceId
  if scoreSt.1 < 5000 then (.errorRes "Trust score too low", scoreSt.2)
  else if isCanary then getCanaryTask now scoreSt.2 capabilities typeCoin pickIdx
  else getRegularTask now scoreSt.2 deviceId capabilities

/-! ## Execution-time plausibility and the submit route -/

/-- Minimum plausible execution time per task type
(`ResultVerifier.verifyExecutionTime`, lines 169-187). -/
def expectedRangeMin (taskType : String) : Int :=
  if taskType == "matrix_mult" then 10
  else if taskType == "hash_compute" then 5
  else if taskType == "ml_inference" then 100
  else 10

/-- Maximum plausible execution time per task type scaled by difficulty. -/
def expectedRangeMax (taskType : String) (difficulty : Int) : Int :=
  if taskType == "matrix_mult" then 5000 * difficulty
  else if taskType == "hash_compute" then 3000 * difficulty
  else if taskType == "ml_inference" then 15000 * difficulty
  else 30000

/-- `ResultVerifier.verifyExecutionTime`: `some reason` models
`{valid:false, reason}`, `none` models `{valid:true}`. -/
def verifyExecutionTime (taskType : String) (executionTimeMs : Int)
    (difficulty : Int) : Option String :=
  if executionTimeMs < expectedRangeMin taskType then
    some "Execution too fast - possible pre-computation"
  else if expectedRangeMax taskType difficulty < executionTimeMs then
    some "Execution too slow - timeout risk"
  else none

/-- JS `result.task_type || 'unknown'`: a string field read with JS
truthiness (missing, non-string or empty values fall back to the default). -/
def jsGetStrOr (v : Jv) (key dflt : String) : String :=
  match v with
  | .obj fs =>
    match fs.find? (fun p => p.1 == key) with
    | some (_, .str s) => if s == "" then dflt else s
    | _ => dflt
  | _ => dflt

/-- JS `result.difficulty || 1`: a numeric field read with JS truthiness
(missing, non-numeric or zero values fall back to the default). -/
def jsGetNumOr (v : Jv) (key : String) (dflt : Int) : Int :=
  match v with
  | .obj fs =>
    match fs.find? (fun p => p.1 == key) with
    | some (_, .num n) => if n == 0 then dflt else n
    | _ => dflt
  | _ => dflt

/-- Response of the `POST /compute/task/submit` route. -/
structure RouteResponse where
  httpStatus : Nat
  success : Bool
  error : Option String
  outcome : Option SubmitOutcome

/-- The `POST /compute/task/submit` handler: reject missing fields, then run
the execution-time plausibility check on the client-declared type and
difficulty, and only if it passes hand the submission to
`TaskQueue.submitResult`.  A plausibility rejection returns before any store
mutation. -/
def submitRoute (now : Nat) (st : Store) (deviceId taskUuid : String)
    (result : Option Jv) (executionTimeMs : Int) : RouteResponse × Store :=
  match result with
  | none => (⟨400, false, some "Missing required fields", none⟩, st)
  | some r =>
    if deviceId == "" || taskUuid == "" then
      (⟨400, false, some "Missing required fields", none⟩, st)
    else
      match verifyExecutionTime (jsGetStrOr r "task_type" "unknown")
          executionTimeMs (jsGetNumOr r "difficulty" 1) with
      | some reason => (⟨400, false, some reason, none⟩, st)
      | none =>
        let sub := submitResult now st deviceId taskUuid r executionTimeMs
        (⟨200, sub.1.success, sub.1.error, some sub.1⟩, sub.2)

/-! ## Trust-update event model (for the trust-bound invariant) -/

/-- The trust-score updates the system can apply to a node's row: regular
verified success and failure (`updateTrustScore`), the canary pass/fail
branches of `verifyCanaryResult` (including its ban escalation), and the
pass/fail branches of `ResultVerifier.recordCanaryResult` (including
`banNode`, which zeroes the score). -/
inductive TrustEvent where
  | regularSuccess : TrustEvent
  | regularFailure : TrustEvent
  | queueCanaryPass : TrustEvent
  | queueCanaryFail : TrustEvent
  | verifierCanaryPass : TrustEvent
  | verifierCanaryFail : TrustEvent

/-- Apply one trust update to a node's trust row. -/
def applyTrustEvent (now : Nat) (r : TrustRow) : TrustEvent → TrustRow
  | .regularSuccess => trustSuccessUpdate r
  | .regularFailure => trustFailureUpdate now r
  | .queueCanaryPass => canaryPassUpdate r
  | .queueCanaryFail =>
    let r1 := canaryFailUpdate now r
    if 3 ≤ r1.canaryFailures then banUpdate now r1 else r1
  | .verifierCanaryPass => verifierCanaryPassUpdate r
  | .verifierCanaryFail =>
    let r1 := verifierCanaryFailUpdate now r
    if 3 ≤ r1.canaryFailures then
      banNodeUpdate now "Multiple canary verification failures" r1
    else r1

/-- Fold a sequence of trust updates over a trust row. -/
def runTrustEvents (now : Nat) (r : TrustRow) (es : List TrustEvent) : TrustRow :=
  es.foldl (applyTrustEvent now) r


/-! ## Scenario states used by the concrete claim checks -/

-- C1 scenario: a deterministic task (stored expected hash, redundancy 3,
-- reward 0.5 credits) assigned to device `d1`; `d1` submits the matching
-- result and then submits the very same result a second time.

def c1ResHash : String := hashResult (Jv.str "res")

def c1Store : Store :=
  { users := [⟨1, "d1", 0, 0, 0⟩]
    tasks := [⟨1, "task-1", "matrix_mult", 1, 5, "ih", some c1ResHash, Jv.null,
      none, none, 500000, 5000, false, 3, "assigned", 0, 1000⟩]
    assignments := [⟨1, 1, 1, "d1", "assigned", none, none, none, none, false, 0⟩]
    taskResults := []
    earnings := []
    nodeTrust := [freshTrust "d1"]
    canaries := [] }

def c1Run1 : SubmitOutcome × Store :=
  submitResult 100 c1Store "d1" "task-1" (Jv.str "res") 2000

def c1Run2 : SubmitOutcome × Store :=
  submitResult 200 c1Run1.2 "d1" "task-1" (Jv.str "res") 2000

-- C2 scenario: a deterministic task with redundancy 3 assigned to three
-- devices; all three submit matching results (the third submission reaches
-- the redundancy target and finalizes), then the first device resubmits.

def c2ResHash : String := hashResult (Jv.str "out")

def c2Store : Store :=
  { users := [⟨1, "e1", 0, 0, 0⟩, ⟨2, "e2", 0, 0, 0⟩, ⟨3, "e3", 0, 0, 0⟩]
    tasks := [⟨1, "task-2", "hash_compute", 1, 5, "ih", some c2ResHash, Jv.null,
      none, none, 300000, 3000, false, 3, "assigned", 0, 1000⟩]
    assignments := [⟨1, 1, 1, "e1", "assigned", none, none, none, none, false, 0⟩,
      ⟨2, 1, 2, "e2", "assigned", none, none, none, none, false, 0⟩,
      ⟨3, 1, 3, "e3", "assigned", none, none, none, none, false, 0⟩]
    taskResults := []
    earnings := []
    nodeTrust := [freshTrust "e1", freshTrust "e2", freshTrust "e3"]
    canaries := [] }

def c2Run3 : Store :=
  (submitResult 103 (submitResult 102 (submitResult 101 c2Store
    "e1" "task-2" (Jv.str "out") 500).2
    "e2" "task-2" (Jv.str "out") 500).2
    "e3" "task-2" (Jv.str "out") 500).2

def c2Run4 : Store := (submitResult 104 c2Run3 "e1" "task-2" (Jv.str "out") 500).2

-- C9 scenario: one registered WebGPU node, one pending non-GPU task, an
-- empty canary pool.

def c9Store : Store :=
  { users := [⟨1, "device-1", 0, 0, 0⟩]
    tasks := [⟨1, "t-1", "hash_compute", 1, 5, "ih", none, Jv.null, none, none,
      300000, 3000, false, 3, "pending", 0, 1000⟩]
    assignments := []
    taskResults := []
    earnings := []
    nodeTrust := [freshTrust "device-1"]
    canaries := [] }

/-- The canary row used by the concrete canary-ban check. -/
def c6Canary : CanaryRow := ⟨"canary_c1", "hash_compute", Jv.null, "KH", Jv.null⟩

/-- An empty database state. -/
def emptyStore : Store := ⟨[], [], [], [], [], [], []⟩

/-- The submitted hash is (weakly) the most frequent: no hash among the
completed submissions occurs strictly more often. -/
def weaklyModal (cs : List String) (h : String) : Prop :=
  ∀ g ∈ cs, countHash cs g ≤ countHash cs h

/-- The submitted hash is strictly the most frequent: every other hash among
the completed submissions occurs strictly less often. -/
def strictlyModal (cs : List String) (h : String) : Prop :=
  ∀ g ∈ cs, g ≠ h → countHash cs g < countHash cs h

instance (cs : List String) (h : String) : Decidable (weaklyModal cs h) :=
  inferInstanceAs (Decidable (∀ g ∈ cs, countHash cs g ≤ countHash cs h))

instance (cs : List String) (h : String) : Decidable (strictlyModal cs h) :=
  inferInstanceAs (Decidable (∀ g ∈ cs, g ≠ h → countHash cs g < countHash cs h))

/-! # Theorems -/

/-! ## Canonical hashing is invariant under key reordering -/

theorem charToNat_injective : Function.Injective Char.toNat :=
  fun _ _ h => Char.eq_of_val_eq (UInt32.toNat.inj h)

theorem keyRank_injective : Function.Injective keyRank := by
  intro s t h
  have hd : s.data = t.data := List.map_injective_iff.mpr charToNat_injective h
  cases s; cases t; exact congrArg String.mk hd

theorem sorted_fieldLt_of_sorted_nodup {l : List (String × Jv)}
    (hs : List.Sorted fieldLe l) (hnd : (l.map Prod.fst).Nodup) :
    List.Sorted fieldLt l := by
  have hpw : l.Pairwise (fun p q => p.1 ≠ q.1) := List.pairwise_map.mp hnd
  exact (hs.and hpw).imp
    (fun h => lt_of_le_of_ne h.1 (fun hk => h.2 (keyRank_injective hk)))

/-- Sorting the entry list by key is insensitive to the initial entry order,
provided the keys are distinct (as they are for a JS object). -/
theorem sortEntries_eq_of_perm {l1 l2 : List (String × Jv)} (hp : l1.Perm l2)
    (hnd : (l1.map Prod.fst).Nodup) :
    List.insertionSort fieldLe l1 = List.insertionSort fieldLe l2 := by
  have hperm : (List.insertionSort fieldLe l1).Perm (List.insertionSort fieldLe l2) :=
    (List.perm_insertionSort fieldLe l1).trans
      (hp.trans (List.perm_insertionSort fieldLe l2).symm)
  have hnd1 : ((List.insertionSort fieldLe l1).map Prod.fst).Nodup :=
    (((List.perm_insertionSort fieldLe l1).map Prod.fst).nodup_iff).mpr hnd
  have hnd2 : ((List.insertionSort fieldLe l2).map Prod.fst).Nodup :=
    (((List.perm_insertionSort fieldLe l2).map Prod.fst).nodup_iff).mpr
      ((hp.map Prod.fst).nodup_iff.mp hnd)
  exact List.eq_of_perm_of_sorted hperm
    (sorted_fieldLt_of_sorted_nodup (List.sorted_insertionSort fieldLe l1) hnd1)
    (sorted_fieldLt_of_sorted_nodup (List.sorted_insertionSort fieldLe l2) hnd2)

theorem keyPermEntries_fst_eq : ∀ xs zs, KeyPermEntries xs zs →
    xs.map Prod.fst = zs.map Prod.fst
  | [], [], _ => rfl
  | [], (_, _) :: _, h => False.elim h
  | (_, _) :: _, [], h => False.elim h
  | (k, v) :: xs, (k2, w) :: zs, h => by
    obtain ⟨hk, _, hrest⟩ := h
    simp only [List.map_cons, hk, keyPermEntries_fst_eq xs zs hrest]

theorem sortObjectFields_eq_map : ∀ fs : List (String × Jv),
    sortObjectFields fs = fs.map (fun p => (p.1, sortObject p.2))
  | [] => rfl
  | (k, v) :: fs => by
    simp only [sortObjectFields, List.map_cons, sortObjectFields_eq_map fs]

theorem sortObjectFields_fst (fs : List (String × Jv)) :
    (sortObjectFields fs).map Prod.fst = fs.map Prod.fst := by
  rw [sortObjectFields_eq_map, List.map_map]; rfl

mutual
theorem sortObject_eq_of_keyPerm : ∀ x y, KeyPerm x y → sortObject x = sortObject y
  | .null, y, h => by
    cases y
    case null => rfl
    all_goals exact False.elim h
  | .bool a, y, h => by
    cases y
    case bool b => have h2 : a = b := h; rw [h2]
    all_goals exact False.elim h
  | .num a, y, h => by
    cases y
    case num b => have h2 : a = b := h; rw [h2]
    all_goals exact False.elim h
  | .str a, y, h => by
    cases y
    case str b => have h2 : a = b := h; rw [h2]
    all_goals exact False.elim h
  | .arr xs, y, h => by
    cases y
    case arr ys => exact congrArg Jv.arr (sortObjectList_eq_of_keyPermList xs ys h)
    all_goals exact False.elim h
  | .obj xs, y, h => by
    cases y
    case obj ys =>
      obtain ⟨hnd, zs, hent, hperm⟩ := h
      have hfs : sortObjectFields xs = sortObjectFields zs :=
        sortObjectFields_eq_of_keyPermEntries xs zs hent
      have hmapz : (sortObjectFields zs).Perm (sortObjectFields ys) := by
        rw [sortObjectFields_eq_map, sortObjectFields_eq_map]
        exact hperm.map _
      have hnd2 : ((sortObjectFields xs).map Prod.fst).Nodup := by
        rw [sortObjectFields_fst]; exact hnd
      have hsorts : List.insertionSort fieldLe (sortObjectFields xs)
          = List.insertionSort fieldLe (sortObjectFields ys) :=
        sortEntries_eq_of_perm (hfs ▸ hmapz) hnd2
      show Jv.obj (List.insertionSort fieldLe (sortObjectFields xs))
          = Jv.obj (List.insertionSort fieldLe (sortObjectFields ys))
      rw [hsorts]
    all_goals exact False.elim h

theorem sortObjectList_eq_of_keyPermList : ∀ xs ys, KeyPermList xs ys →
    sortObjectList xs = sortObjectList ys
  | [], [], _ => rfl
  | [], _ :: _, h => False.elim h
  | _ :: _, [], h => False.elim h
  | x :: xs, y :: ys, h => by
    have h1 : KeyPerm x y := h.1
    have h2 : KeyPermList xs ys := h.2
    show sortObject x :: sortObjectList xs = sortObject y :: sortObjectList ys
    rw [sortObject_eq_of_keyPerm x y h1, sortObjectList_eq_of_keyPermList xs ys h2]

theorem sortObjectFields_eq_of_keyPermEntries : ∀ xs zs, KeyPermEntries xs zs →
    sortObjectFields xs = sortObjectFields zs
  | [], [], _ => rfl
  | [], (_, _) :: _, h => False.elim h
  | (_, _) :: _, [], h => False.elim h
  | (k, v) :: xs, (k2, w) :: zs, h => by
    obtain ⟨hk, hv, hrest⟩ := h
    show (k, sortObject v) :: sortObjectFields xs
        = (k2, sortObject w) :: sortObjectFields zs
    rw [hk, sortObject_eq_of_keyPerm v w hv,
      sortObjectFields_eq_of_keyPermEntries xs zs hrest]
end

/-! ## Frequency-ranking lemmas -/

theorem mem_addFirst (a h : String) (acc : List String) :
    a ∈ addFirst acc h ↔ a ∈ acc ∨ a = h := by
  unfold addFirst
  by_cases hm : h ∈ acc
  · simp only [if_pos hm]
    constructor
    · exact Or.inl
    · intro hor
      cases hor with
      | inl h1 => exact h1
      | inr h2 => exact h2 ▸ hm
  · simp only [if_neg hm, List.mem_append, List.mem_singleton]

theorem mem_foldl_addFirst (a : String) :
    ∀ (l acc : List String), a ∈ l.foldl addFirst acc ↔ a ∈ acc ∨ a ∈ l := by
  intro l
  induction l with
  | nil => intro acc; simp
  | cons h t ih =>
    intro acc
    rw [List.foldl_cons, ih, mem_addFirst]
    simp [List.mem_cons, or_assoc]

theorem mem_firstOccur (a : String) (cs : List String) :
    a ∈ firstOccur cs ↔ a ∈ cs := by
  unfold firstOccur; rw [mem_foldl_addFirst]; simp

theorem mem_hashGroups_self (h : String) (cs : List String) (hmem : h ∈ cs) :
    (h, countHash cs h) ∈ hashGroups cs :=
  List.mem_map_of_mem _ ((mem_firstOccur h cs).mpr hmem)

theorem hashGroups_mem_spec {p : String × Nat} {cs : List String}
    (hp : p ∈ hashGroups cs) : p.1 ∈ cs ∧ p.2 = countHash cs p.1 := by
  unfold hashGroups at hp
  obtain ⟨h, hh, hph⟩ := List.mem_map.mp hp
  refine ⟨?_, ?_⟩
  · rw [← hph]; exact (mem_firstOccur h cs).mp hh
  · rw [← hph]

theorem topGroup_mem {cs : List String} {top : String × Nat}
    (h : topGroup cs = some top) : top ∈ hashGroups cs :=
  List.argmax_mem (Option.mem_def.mpr h)

theorem topGroup_le {cs : List String} {top : String × Nat}
    (h : topGroup cs = some top) {p : String × Nat} (hp : p ∈ hashGroups cs) :
    p.2 ≤ top.2 :=
  List.le_of_mem_argmax hp (Option.mem_def.mpr h)

theorem topGroup_isSome_of_mem {cs : List String} {h2 : String} (hmem : h2 ∈ cs) :
    ∃ top, topGroup cs = some top := by
  cases htg : topGroup cs with
  | some top => exact ⟨top, rfl⟩
  | none =>
    exfalso
    have hemp : hashGroups cs = [] := List.argmax_eq_none.mp htg
    have hmem2 := mem_hashGroups_self h2 cs hmem
    rw [hemp] at hmem2
    exact absurd hmem2 (List.not_mem_nil _)

/-! ## Canary and trust step lemmas -/

/-- Effect of one mismatching canary submission on a one-node store: the
failure counters are bumped and the ban fires exactly when the incremented
`canary_failures` reaches 3. -/
theorem canary_mismatch_step (now : Nat) (d : String) (r : TrustRow) (c : CanaryRow)
    (res : Jv) (ms : Int) (hd : r.deviceId = d)
    (hu : startsWithCanary c.uuid = true)
    (hmiss : hashResult res ≠ c.knownOutputHash) :
    (submitResult now ⟨[], [], [], [], [], [r], [c]⟩ d c.uuid res ms).2
      = ⟨[], [], [], [], [],
          [if 3 ≤ r.canaryFailures + 1 then banUpdate now (canaryFailUpdate now r)
           else canaryFailUpdate now r], [c]⟩ := by
  have hpassed : (hashResult res == c.knownOutputHash) = false := by
    simpa using hmiss
  simp [submitResult, hu, verifyCanaryResult, updateWhere, hpassed, hd,
    canaryFailUpdate, List.find?]
  split <;> rfl

/-- Every single trust update keeps the score inside `[0, 100]`. -/
theorem applyTrustEvent_bounds (now : Nat) (r : TrustRow) (e : TrustEvent)
    (h0 : 0 ≤ r.trustScore) (h1 : r.trustScore ≤ 10000) :
    0 ≤ (applyTrustEvent now r e).trustScore
    ∧ (applyTrustEvent now r e).trustScore ≤ 10000 := by
  cases e <;>
    simp only [applyTrustEvent, trustSuccessUpdate, trustFailureUpdate,
      canaryPassUpdate, canaryFailUpdate, banUpdate, verifierCanaryPassUpdate,
      verifierCanaryFailUpdate, banNodeUpdate, intMin, intMax] <;>
    split_ifs <;> simp_all <;> omega

/-! ## Claim theorems -/

/-- C1.  "Credit is awarded at most once per (task, node) assignment" —
REFUTED by the code: after a verified, credited submission for `task-1`,
device `d1` resubmits the identical result; the assignment lookup in
`processRegularResult` does not exclude completed assignments and the credit
branch carries no once-only guard, so the submission is verified again and
the node's credited balance and earnings records for the task increase a
second time (0.5 credits / one earnings row become 1.0 credits / two rows). -/
theorem credit_double_award_bug :
    c1Run1.1.verified = true
    ∧ c1Run1.2.users.map (fun u => u.claimableBalance) = [500000]
    ∧ c1Run1.2.users.map (fun u => u.totalEarned) = [500000]
    ∧ (c1Run1.2.earnings.filter (fun e => e.taskId == 1)).length = 1
    ∧ c1Run2.1.verified = true
    ∧ c1Run2.2.users.map (fun u => u.claimableBalance) = [1000000]
    ∧ c1Run2.2.users.map (fun u => u.totalEarned) = [1000000]
    ∧ (c1Run2.2.earnings.filter (fun e => e.taskId == 1)).length = 2 := by
  decide

/-- C2.  "Task finalization happens at most once per task" — REFUTED by the
code: after the third matching submission for `task-2` the task is completed
and exactly one task-result record exists, but a further submission
processed after the completed-submission count already reached the
redundancy target inserts a second task-result record for the same task
(`task_results` has no uniqueness constraint and the finalization block has
no already-finalized guard). -/
theorem finalize_double_record_bug :
    (c2Run3.taskResults.filter (fun r => r.taskId == 1)).length = 1
    ∧ c2Run3.tasks.map (fun t => t.status) = ["completed"]
    ∧ (c2Run4.taskResults.filter (fun r => r.taskId == 1)).length = 2 := by
  decide

/-- C3 (amended).  Majority-consensus verification for tasks without an
expected output hash: a submission whose hash is strictly the most frequent
among completed submissions and whose count reaches `ceil(redundancy/2)` is
verified; a verified submission always has a (weakly) most frequent hash
with count at least `ceil(redundancy/2)`; when two hashes tie for most
frequent the outcome depends on the grouping order (modelled: the hash
completed first wins), so weak modality alone does not suffice.  With
redundancy 3, submission hashes `[A,A,B]` verify the submission hashing to
`A`, and `[A,B,C]` verify no submission. -/
theorem consensus_majority_verdict (cs : List String) (hsh : String) (r : Nat)
    (hmem : hsh ∈ cs) :
    (strictlyModal cs hsh → ceilHalf r ≤ countHash cs hsh →
        consensusVerdict none r cs hsh = true)
    ∧ (consensusVerdict none r cs hsh = true →
        weaklyModal cs hsh ∧ ceilHalf r ≤ countHash cs hsh)
    ∧ consensusVerdict none 3 ["A", "A", "B"] "A" = true
    ∧ consensusVerdict none 3 ["A", "B", "C"] "A" = false
    ∧ consensusVerdict none 3 ["A", "B", "C"] "B" = false
    ∧ consensusVerdict none 3 ["A", "B", "C"] "C" = false := by
  refine ⟨?_, ?_, by decide, by decide, by decide, by decide⟩
  · intro hstrict hthr
    obtain ⟨top, htop⟩ := topGroup_isSome_of_mem hmem
    obtain ⟨htopc, htopcount⟩ := hashGroups_mem_spec (topGroup_mem htop)
    have hle : countHash cs hsh ≤ top.2 :=
      topGroup_le htop (mem_hashGroups_self hsh cs hmem)
    have heq : top.1 = hsh := by
      by_contra hne
      have hlt := hstrict top.1 htopc hne
      omega
    unfold consensusVerdict
    rw [htop]
    simp only [heq, beq_self_eq_true, Bool.true_and, decide_eq_true_eq]
    omega
  · intro hv
    unfold consensusVerdict at hv
    cases htop : topGroup cs with
    | none => rw [htop] at hv; simp at hv
    | some top =>
      rw [htop] at hv
      simp only [Bool.and_eq_true, beq_iff_eq, decide_eq_true_eq] at hv
      obtain ⟨h1, h2⟩ := hv
      obtain ⟨htopc, htopcount⟩ := hashGroups_mem_spec (topGroup_mem htop)
      constructor
      · intro g hg
        have hle := topGroup_le htop (mem_hashGroups_self g cs hg)
        rw [htopcount, h1] at hle
        exact hle
      · rw [htopcount, h1] at h2
        exact h2

/-- C3 counterexample.  The claim as stated — verified iff the hash is the
most frequent and its count reaches `ceil(redundancy/2)` — fails at a tie:
with redundancy 2 and completed submissions `[B, A]`, the submission hashing
to `A` is (weakly) most frequent with count `1 ≥ ceil(2/2)`, yet the group
ranked first is `B`, so the submission is not verified. -/
theorem consensus_majority_claim_cex :
    ¬ (consensusVerdict none 2 ["B", "A"] "A" = true
      ↔ (weaklyModal ["B", "A"] "A" ∧ ceilHalf 2 ≤ countHash ["B", "A"] "A")) := by
  decide

/-- C3 witness: the amended sufficiency applied at `cs = [A,A]`,
redundancy 3. -/
theorem consensus_majority_verdict_witness :
    ("A" ∈ (["A", "A"] : List String))
    ∧ consensusVerdict none 3 ["A", "A"] "A" = true :=
  ⟨by decide, (consensus_majority_verdict ["A", "A"] "A" 3 (by decide)).1
      (by decide) (by decide)⟩

/-- C4 (amended).  Deterministic-hash verification for a task with stored
`expected_output_hash = H`: a submission whose hash differs from `H` is
never verified, regardless of the submission pool; a submission hashing to
`H` is verified whenever `H` is strictly the most frequent hash (in
particular when it is the only submission); a verified submission always
hashes to `H` with `H` (weakly) most frequent.  When another hash ties with
`H` for most frequent, verification depends on the grouping order
(modelled: the hash completed first wins), so hash equality plus weak
modality does not suffice. -/
theorem deterministic_verdict (cs : List String) (hsh H : String) (r : Nat)
    (hmem : hsh ∈ cs) :
    (∀ g : String, g ≠ H → consensusVerdict (some H) r cs g = false)
    ∧ (hsh = H → strictlyModal cs hsh → consensusVerdict (some H) r cs hsh = true)
    ∧ (consensusVerdict (some H) r cs hsh = true → hsh = H ∧ weaklyModal cs hsh) := by
  refine ⟨?_, ?_, ?_⟩
  · intro g hg
    unfold consensusVerdict
    cases htop : topGroup cs with
    | none => rfl
    | some top => simp [hg]
  · intro hH hstrict
    obtain ⟨top, htop⟩ := topGroup_isSome_of_mem hmem
    obtain ⟨htopc, htopcount⟩ := hashGroups_mem_spec (topGroup_mem htop)
    have hle : countHash cs hsh ≤ top.2 :=
      topGroup_le htop (mem_hashGroups_self hsh cs hmem)
    have heq : top.1 = hsh := by
      by_contra hne
      have hlt := hstrict top.1 htopc hne
      omega
    unfold consensusVerdict
    rw [htop]
    simp [heq, hH]
  · intro hv
    unfold consensusVerdict at hv
    cases htop : topGroup cs with
    | none => rw [htop] at hv; simp at hv
    | some top =>
      rw [htop] at hv
      simp only [Bool.and_eq_true, beq_iff_eq] at hv
      obtain ⟨h1, h2⟩ := hv
      obtain ⟨htopc, htopcount⟩ := hashGroups_mem_spec (topGroup_mem htop)
      refine ⟨h2, ?_⟩
      intro g hg
      have hle := topGroup_le htop (mem_hashGroups_self g cs hg)
      rw [htopcount, h1] at hle
      exact hle

/-- C4 counterexample.  The claim as stated — verified iff the hash equals
`H` and is the most frequent — fails at a tie: with completed submissions
`[B, H]` the submission hashing to `H` equals the expected hash and is
(weakly) most frequent, yet the group ranked first is `B`, so the
submission is not verified. -/
theorem deterministic_verdict_claim_cex :
    ¬ (consensusVerdict (some "H") 3 ["B", "H"] "H" = true
      ↔ ("H" = "H" ∧ weaklyModal ["B", "H"] "H")) := by
  decide

/-- C4 witness: the amended sufficiency applied at the singleton pool
`[H]`. -/
theorem deterministic_verdict_witness :
    ("H" ∈ (["H"] : List String))
    ∧ consensusVerdict (some "H") 3 ["H"] "H" = true :=
  ⟨by decide, (deterministic_verdict ["H"] "H" "H" 3 (by decide)).2.1 rfl (by decide)⟩

/-- C5.  Canonical result hashing is key-order invariant: for every pair of
structured values equal up to the ordering of keys in any nested object
(recursively, including objects inside arrays), `hashResult` returns the
identical digest. -/
theorem hashResult_keyPerm_invariant (x y : Jv) (h : KeyPerm x y) :
    hashResult x = hashResult y := by
  cases x
  case null =>
    cases y
    case null => rfl
    all_goals exact False.elim h
  case bool a =>
    cases y
    case bool b => have h2 : a = b := h; rw [h2]
    all_goals exact False.elim h
  case num a =>
    cases y
    case num b => have h2 : a = b := h; rw [h2]
    all_goals exact False.elim h
  case str a =>
    cases y
    case str b => have h2 : a = b := h; rw [h2]
    all_goals exact False.elim h
  case arr xs =>
    cases y
    case arr ys =>
      have h2 := sortObject_eq_of_keyPerm (Jv.arr xs) (Jv.arr ys) h
      simp [hashResult, isJsObject, h2]
    all_goals exact False.elim h
  case obj xs =>
    cases y
    case obj ys =>
      have h2 := sortObject_eq_of_keyPerm (Jv.obj xs) (Jv.obj ys) h
      simp [hashResult, isJsObject, h2]
    all_goals exact False.elim h

/-- C5 witness: `hashResult {a:1,b:2} = hashResult {b:2,a:1}`. -/
theorem hashResult_keyPerm_invariant_witness :
    KeyPerm (Jv.obj [("a", Jv.num 1), ("b", Jv.num 2)])
        (Jv.obj [("b", Jv.num 2), ("a", Jv.num 1)])
    ∧ hashResult (Jv.obj [("a", Jv.num 1), ("b", Jv.num 2)])
        = hashResult (Jv.obj [("b", Jv.num 2), ("a", Jv.num 1)]) := by
  have hkp : KeyPerm (Jv.obj [("a", Jv.num 1), ("b", Jv.num 2)])
      (Jv.obj [("b", Jv.num 2), ("a", Jv.num 1)]) := by
    refine ⟨by decide, [("a", Jv.num 1), ("b", Jv.num 2)],
      ⟨rfl, rfl, rfl, rfl, trivial⟩, ?_⟩
    exact List.Perm.swap _ _ _
  exact ⟨hkp, hashResult_keyPerm_invariant _ _ hkp⟩

/-- C6.  Canary ban escalation: for every node (any device id, initial
score, counters) whose trust record starts with zero canary failures and no
ban, three mismatching canary submissions through `submitResult` set
`banned = true` with the recorded reason and timestamp, while after only two
mismatches the node is not banned. -/
theorem canary_ban_escalation (now : Nat) (d : String) (score0 : Int)
    (tot sc fl : Nat) (lf : Option Nat) (c : CanaryRow) (res : Jv) (ms : Int)
    (hu : startsWithCanary c.uuid = true)
    (hmiss : hashResult res ≠ c.knownOutputHash) :
    (((submitResult now ((submitResult now ((submitResult now
        (⟨[], [], [], [], [],
          [⟨d, score0, tot, sc, fl, 0, lf, false, none, none⟩], [c]⟩ : Store)
        d c.uuid res ms).2) d c.uuid res ms).2) d c.uuid res ms).2).nodeTrust.map
          (fun r => (r.banned, r.banReason, r.bannedAt))
        = [(true, some "Multiple canary failures", some now)])
    ∧ (((submitResult now ((submitResult now
        (⟨[], [], [], [], [],
          [⟨d, score0, tot, sc, fl, 0, lf, false, none, none⟩], [c]⟩ : Store)
        d c.uuid res ms).2) d c.uuid res ms).2).nodeTrust.map (fun r => r.banned)
        = [false]) := by
  have h1 := canary_mismatch_step now d
    ⟨d, score0, tot, sc, fl, 0, lf, false, none, none⟩ c res ms rfl hu hmiss
  simp only [show ¬ (3 ≤ 0 + 1) by omega, if_neg, ite_false] at h1
  rw [h1]
  have h2 := canary_mismatch_step now d
    (canaryFailUpdate now ⟨d, score0, tot, sc, fl, 0, lf, false, none, none⟩)
    c res ms (by simp [canaryFailUpdate]) hu hmiss
  simp only [canaryFailUpdate] at h2 ⊢
  rw [h2]
  have hc2 : ¬ (3 ≤ 0 + 1 + 1) := by omega
  rw [if_neg hc2]
  have h3 := canary_mismatch_step now d
    ⟨d, intMax 0 (intMax 0 (score0 - 1000) - 1000), tot, sc, fl, 0 + 1 + 1,
      some now, false, none, none⟩ c res ms rfl hu hmiss
  simp only [canaryFailUpdate] at h3
  rw [h3]
  have hc3 : 3 ≤ 0 + 1 + 1 + 1 := by omega
  rw [if_pos hc3]
  simp [banUpdate]

/-- C6 witness: a concrete node `dc` and canary `canary_c1` with a
mismatching submission, banned after the third mismatch. -/
theorem canary_ban_escalation_witness :
    startsWithCanary c6Canary.uuid = true
    ∧ hashResult (Jv.str "wrong") ≠ c6Canary.knownOutputHash
    ∧ (((submitResult 7 ((submitResult 7 ((submitResult 7
        (⟨[], [], [], [], [],
          [⟨"dc", 10000, 0, 0, 0, 0, none, false, none, none⟩], [c6Canary]⟩ : Store)
        "dc" c6Canary.uuid (Jv.str "wrong") 100).2)
        "dc" c6Canary.uuid (Jv.str "wrong") 100).2)
        "dc" c6Canary.uuid (Jv.str "wrong") 100).2).nodeTrust.map
          (fun r => (r.banned, r.banReason, r.bannedAt))
        = [(true, some "Multiple canary failures", some 7)]) :=
  ⟨by decide, by decide,
    (canary_ban_escalation 7 "dc" 10000 0 0 0 none c6Canary (Jv.str "wrong") 100
      (by decide) (by decide)).1⟩

/-- C7.  Trust-score bound invariant: starting from any score in `[0, 100]`
(in hundredths: `[0, 10000]`), every sequence of trust updates — regular
success `+0.5` / failure `−5`, canary pass `+1` or `+2`, canary failure
`−10` or `−15` with ban escalation — leaves the stored score inside
`[0, 100]`; in particular any number of consecutive successes caps at 100
and any number of consecutive failures floors at 0. -/
theorem trust_score_bounds (now : Nat) (es : List TrustEvent) (r : TrustRow)
    (h0 : 0 ≤ r.trustScore) (h1 : r.trustScore ≤ 10000) :
    0 ≤ (runTrustEvents now r es).trustScore
    ∧ (runTrustEvents now r es).trustScore ≤ 10000 := by
  induction es generalizing r with
  | nil => exact ⟨h0, h1⟩
  | cons e t ih =>
    have hstep := applyTrustEvent_bounds now r e h0 h1
    exact ih (applyTrustEvent now r e) hstep.1 hstep.2

/-- C7 witness: a mixed update sequence applied to a fresh trust record. -/
theorem trust_score_bounds_witness :
    (0 ≤ (freshTrust "w").trustScore ∧ (freshTrust "w").trustScore ≤ 10000)
    ∧ 0 ≤ (runTrustEvents 5 (freshTrust "w")
        [TrustEvent.regularSuccess, TrustEvent.regularSuccess,
         TrustEvent.queueCanaryFail, TrustEvent.verifierCanaryFail,
         TrustEvent.regularFailure, TrustEvent.regularFailure]).trustScore
    ∧ (runTrustEvents 5 (freshTrust "w")
        [TrustEvent.regularSuccess, TrustEvent.regularSuccess,
         TrustEvent.queueCanaryFail, TrustEvent.verifierCanaryFail,
         TrustEvent.regularFailure, TrustEvent.regularFailure]).trustScore ≤ 10000 := by
  refine ⟨⟨by decide, by decide⟩, ?_, ?_⟩
  · exact (trust_score_bounds 5 _ (freshTrust "w") (by decide) (by decide)).1
  · exact (trust_score_bounds 5 _ (freshTrust "w") (by decide) (by decide)).2

/-- C8.  Execution-time plausibility fail-fast: a submission whose claimed
execution time is below the (client-declared) task type's minimum is
rejected by the submit route with the pre-computation-suspected reason, and
the returned store is the input store — no consensus or trust state is
mutated before the rejection. -/
theorem exec_time_fail_fast (now : Nat) (st : Store) (deviceId taskUuid : String)
    (result : Jv) (executionTimeMs : Int)
    (hdev : (deviceId == "") = false) (htask : (taskUuid == "") = false)
    (hfast : executionTimeMs < expectedRangeMin (jsGetStrOr result "task_type" "unknown")) :
    submitRoute now st deviceId taskUuid (some result) executionTimeMs
      = (⟨400, false, some "Execution too fast - possible pre-computation", none⟩, st) := by
  simp [submitRoute, verifyExecutionTime, hdev, htask, hfast]

/-- C8 witness: a 3 ms matrix-multiply submission (minimum 10 ms) is
rejected with the store untouched. -/
theorem exec_time_fail_fast_witness :
    (("dev1" == "") = false) ∧ (("t9" == "") = false)
    ∧ ((3 : Int) < expectedRangeMin
        (jsGetStrOr (Jv.obj [("task_type", Jv.str "matrix_mult")]) "task_type" "unknown"))
    ∧ submitRoute 0 emptyStore "dev1" "t9"
        (some (Jv.obj [("task_type", Jv.str "matrix_mult")])) 3
      = (⟨400, false, some "Execution too fast - possible pre-computation", none⟩,
         emptyStore) :=
  ⟨by decide, by decide, by decide,
    exec_time_fail_fast 0 emptyStore "dev1" "t9"
      (Jv.obj [("task_type", Jv.str "matrix_mult")]) 3 (by decide) (by decide) (by decide)⟩

/-- C9.  "Canary fall-through behaves as a regular claim for the same node"
— REFUTED by the code: with an empty canary pool, the canary branch of
`getNextTask` for registered node `device-1` returns the
`Device not registered` error and creates no assignment (the source passes
the capabilities value in the `deviceId` parameter of `getRegularTask`),
whereas a direct regular claim for the same node and capabilities yields
pending task `t-1`.  Both 50/50 canary-type draws behave the same. -/
theorem canary_fallthrough_bug :
    dispatchError (getNextTask 100 c9Store "device-1" (some ⟨true⟩) true true 0).1
      = some "Device not registered"
    ∧ ((getNextTask 100 c9Store "device-1" (some ⟨true⟩) true true 0).2).assignments.length = 0
    ∧ dispatchUuid (getRegularTask 100 c9Store "device-1" (some ⟨true⟩)).1 = some "t-1"
    ∧ dispatchError (getNextTask 100 c9Store "device-1" (some ⟨true⟩) true false 0).1
      = some "Device not registered" := by
  decide

/-- C10.  Canonical hashing conflates non-object values with their string
forms: for every (integral) number `n`, `hashResult` of the number equals
`hashResult` of its JS string form, e.g. `hashResult 5 = hashResult "5"` —
both sides reach the digest through `String(result)`, so a submission
returning the string form of a numeric result verifies identically. -/
theorem hashResult_num_str_conflation (n : Int) :
    hashResult (Jv.num n) = hashResult (Jv.str (jsToString (Jv.num n)))
    ∧ hashResult (Jv.num 5) = hashResult (Jv.str "5") :=
  ⟨rfl, rfl⟩

end Orius
